import Mathlib

/-!
Verification development for a browser realtime speech-to-text front-end.

The development shallowly embeds the state and transition functions of the
source modules:

* `useAssemblyAIRealtime.js` — transcription session lifecycle, event
  handlers, transcript accumulation (`RTState`, `deliverEvent`, `connectFn`,
  `disconnectFn`);
* `useAudioProcessing.js` — the PCM frame encoder (`convertFloat32ToInt16`);
* `useMicrophonePermission.js` — permission state machine
  (`requestPermission`, `cleanupMediaStream`);
* `useAudioVisualization.js` — the activation effect of the level/band
  visualization (`vizEffect`);
* `useRecordingTimer.js` — the recording clock (`timerEffect`, `tickClock`);
* `useSpeechToText.js` — the session orchestrator (`orchStep`, `runOrch`).

React state hooks become record fields; event-handler closures become
functions on the record; `setTimeout` callbacks become explicit events whose
captured values are stored in the state (the JavaScript closure captures the
render-time value of a state variable, which the embedding records as a
snapshot field).  Audio samples are modelled as rationals: every floating
point value appearing in the verified claims (the clamp bounds and the
boundary samples −1, 0, 1) is exactly representable, and the scaling
arithmetic on them is exact.
-/

namespace STT

/-- Computable model of JavaScript `String.prototype.trim`: drops leading
and trailing whitespace characters.  Defined over the character list so that
concrete instances evaluate inside the kernel (the core `String.trim` is
built on substring primitives that do not reduce definitionally). -/
def trimStr (s : String) : String :=
  ⟨((s.data.dropWhile Char.isWhitespace).reverse.dropWhile Char.isWhitespace).reverse⟩

/-- Computable model of JavaScript `s.endsWith(' ')`. -/
def endsWithSpace (s : String) : Bool :=
  s.data.getLast? = some ' '

/-- Payload of a `transcript` event, as consumed by `getTranscriptText` in
`useAssemblyAIRealtime.js`.  Absent JavaScript fields are encoded as the
empty string, which is exactly the falsy case the source's `||` chain and
`typeof data.message === 'string' ? data.message : ''` guard produce. -/
structure TranscriptData where
  message_type : String
  text : String
  transcript : String
  dataText : String
  dataTranscript : String
  message : String
  deriving Repr, DecidableEq

/-- Embedding of the `getTranscriptText` helper: the first non-empty field of
`text`, `transcript`, `data.text`, `data.transcript`, `message` (JavaScript
`||` on strings selects the first non-empty operand). -/
def getTranscriptText (d : TranscriptData) : String :=
  if d.text ≠ "" then d.text
  else if d.transcript ≠ "" then d.transcript
  else if d.dataText ≠ "" then d.dataText
  else if d.dataTranscript ≠ "" then d.dataTranscript
  else d.message

/-- Embedding of the accumulation step inside the `FinalTranscript` branch:
`prevTemp + (prevTemp ? ' ' : '') + newText.trim()`. -/
def appendFinal (prevTemp newText : String) : String :=
  prevTemp ++ (if prevTemp = "" then "" else " ") ++ trimStr newText

/-- State of the `useAssemblyAIRealtime` hook: the four React state cells
(`tempTranscript`, `partialTranscript`, `connectionStatus`, `sttError`) and
the three refs (`transcriber`, `assemblyToken`, `connectionReady`).
Transcriber instances are identified by a natural number; `transcriberCur`
is the shared `transcriber.current` ref. -/
structure RTState where
  tempTranscript : String
  partialTranscript : String
  connectionStatus : String
  sttError : String
  connectionReady : Bool
  transcriberCur : Option Nat
  authToken : Option String
  deriving Repr, DecidableEq

/-- Initial hook state: `idle`, empty transcripts, not ready, no transcriber. -/
def rtInit : RTState :=
  { tempTranscript := ""
    partialTranscript := ""
    connectionStatus := "idle"
    sttError := ""
    connectionReady := false
    transcriberCur := none
    authToken := none }

/-- Embedding of the `transcript` event handler.  Note the source installs
this handler without any current-instance guard: it mutates the shared state
cells no matter which transcriber instance fired it. -/
def handleTranscript (d : TranscriptData) (st : RTState) : RTState :=
  let newText := getTranscriptText d
  if newText = "" ∨ trimStr newText = "" then st
  else if d.message_type = "PartialTranscript" then
    { st with partialTranscript := newText }
  else if d.message_type = "FinalTranscript" then
    if trimStr newText ≠ "" then
      { st with tempTranscript := appendFinal st.tempTranscript newText }
    else st
  else
    { st with tempTranscript := appendFinal st.tempTranscript newText }

/-- Events emitted by a transcriber instance, mirroring the handlers the
source registers with `newTranscriber.on(...)`. -/
inductive RTEvent where
  | openEv : RTEvent
  | connectingEv : RTEvent
  | connectedEv : RTEvent
  | transcriptEv : TranscriptData → RTEvent
  | closeEv : RTEvent
  | errorEv : Option String → RTEvent
  deriving Repr, DecidableEq

/-- Embedding of the error-message formatting in the `error` handler:
an error object with a `message` (or a plain string) yields
`Error: <message>`, anything else the generic message. -/
def mkErrorMsg (msg : Option String) : String :=
  match msg with
  | some m => "Error: " ++ m
  | none => "An error occurred with the speech recognition service"

/-- Delivery of one event fired by transcriber instance `me` to the handlers
registered by `connect`.  Faithful to the source: the `open`, `connecting`,
`connected`, `transcript` and `error` handlers consult no current-instance
guard; only the `close` handler checks `transcriber.current === newTranscriber`
before resetting the status (it clears the shared `connectionReady` ref
unconditionally). -/
def deliverEvent (me : Nat) (ev : RTEvent) (st : RTState) : RTState :=
  match ev with
  | .openEv =>
    { st with connectionReady := true, connectionStatus := "connected", sttError := "" }
  | .connectingEv =>
    { st with connectionStatus := "connecting" }
  | .connectedEv =>
    { st with connectionReady := true, connectionStatus := "connected" }
  | .transcriptEv d => handleTranscript d st
  | .closeEv =>
    let st1 := { st with connectionReady := false }
    if st.transcriberCur = some me then { st1 with connectionStatus := "idle" } else st1
  | .errorEv msg =>
    { st with sttError := mkErrorMsg msg, connectionStatus := "error" }

/-- Guard evaluated when the scheduled reconnect timer of instance `me`
fires: `transcriber.current === newTranscriber`.  The reconnect is attempted
only when this is `true`. -/
def reconnectFires (me : Nat) (st : RTState) : Bool :=
  decide (st.transcriberCur = some me)

/-- Response of the token endpoint as observed by `fetchToken`: HTTP
success flag, status code and text, and the `token` field of the JSON body
(absent or empty encoded as `""`, the falsy case of `!data.token`). -/
structure HttpResponse where
  ok : Bool
  status : Nat
  statusText : String
  token : String
  deriving Repr, DecidableEq

/-- Embedding of `fetchToken`: non-success HTTP status throws
`Server returned <status>: <statusText>`; a missing token throws
`Server did not return a token`; otherwise the token is returned.  The
`catch` block in the source only logs and rethrows. -/
def fetchToken (r : HttpResponse) : Except String String :=
  if ¬ r.ok then
    .error ("Server returned " ++ toString r.status ++ ": " ++ r.statusText)
  else if r.token = "" then
    .error "Server did not return a token"
  else
    .ok r.token

/-- Embedding of `connect`.  `newId` is the identity of the transcriber
instance that would be created, `fetchOutcome` the result of `fetchToken`,
and `socketOutcome` the result of `await newTranscriber.connect()` (carrying
the error message on rejection).  Returns the boolean result of `connect`
together with the post-state.  Faithful to the source order: early return
when already connecting or connected; status `connecting` and error cleared;
token fetched and stored; empty token throws into the outer catch;
`transcriber.current` is assigned before the await, so it keeps pointing at
the new instance even when the socket connection fails. -/
def connectFn (st : RTState) (newId : Nat) (fetchOutcome : Except String String)
    (socketOutcome : Except String Unit) : Bool × RTState :=
  if st.connectionStatus = "connecting" ∨ st.connectionStatus = "connected" then
    (true, st)
  else
    let st1 := { st with connectionStatus := "connecting", sttError := "" }
    match fetchOutcome with
    | .error m =>
      (false, { st1 with
        sttError := "Failed to connect to speech-to-text service: " ++ m
        connectionStatus := "error" })
    | .ok token =>
      if token = "" then
        (false, { st1 with
          authToken := some token
          sttError := "Failed to connect to speech-to-text service: Token is undefined or empty"
          connectionStatus := "error" })
      else
        let st2 := { st1 with authToken := some token, transcriberCur := some newId }
        match socketOutcome with
        | .ok _ => (true, st2)
        | .error m =>
          (false, { st2 with
            sttError := "Connection error: " ++
              (if m = "" then "Failed to connect to speech service" else m)
            connectionStatus := "error" })

/-- Embedding of `disconnect`.  When a transcriber exists, `close()` is
attempted inside a `try`/`catch` whose catch only logs, after which the ref
is cleared, `connectionReady` reset and the status set to `idle`; when no
transcriber exists the function does nothing at all. -/
def disconnectFn (st : RTState) (closeOutcome : Except String Unit) : RTState :=
  match st.transcriberCur with
  | none => st
  | some _ =>
    match closeOutcome with
    | .ok _ =>
      { st with transcriberCur := none, connectionReady := false, connectionStatus := "idle" }
    | .error _ =>
      { st with transcriberCur := none, connectionReady := false, connectionStatus := "idle" }

/-- Embedding of `sendAudio`: a frame is forwarded only when a transcriber
exists and the shared ready flag is set; `sendOutcome` is whether the
provider call itself throws (caught per frame). -/
def sendAudioFn (st : RTState) (sendOutcome : Bool) : Bool :=
  if st.transcriberCur ≠ none ∧ st.connectionReady then sendOutcome else false

/-- Embedding of `clearTranscripts`: resets both transcript cells. -/
def clearTranscriptsFn (st : RTState) : RTState :=
  { st with tempTranscript := "", partialTranscript := "" }

/-- Clamp of one sample to the interval from −1 to 1, from
`Math.max(-1, Math.min(1, float32Array[i]))` in `convertFloat32ToInt16`
(`useAudioProcessing.js`). -/
def clampQ (x : ℚ) : ℚ :=
  max (-1) (min 1 x)

/-- Truncation toward zero of a rational, the conversion a JavaScript
`Int16Array` element store applies to its right-hand side before the modular
wrap. -/
def ratTrunc (q : ℚ) : ℤ :=
  if 0 ≤ q then ⌊q⌋ else -⌊-q⌋

/-- Wrap of an integer into the signed 16-bit range, the modular part of a
JavaScript `Int16Array` element store. -/
def int16OfInt (z : ℤ) : ℤ :=
  (z + 32768) % 65536 - 32768

/-- Per-sample body of the encoder loop: clamp to the unit interval, scale a
negative sample by `0x8000` and a non-negative one by `0x7FFF`, then store
into the `Int16Array`. -/
def sampleToInt16 (x : ℚ) : ℤ :=
  int16OfInt (ratTrunc (if clampQ x < 0 then clampQ x * 32768 else clampQ x * 32767))

/-- Embedding of `convertFloat32ToInt16`: a fresh output array of the input
length whose entry at index `i` is computed from the input sample at index
`i` alone. -/
def convertFloat32ToInt16 (float32Array : List ℚ) : List ℤ :=
  (List.range float32Array.length).map fun i => sampleToInt16 (float32Array.getD i 0)

/-- Platform error delivered by a rejected `getUserMedia` call, carrying the
JavaScript `name` and `message` of the error object. -/
structure JSError where
  name : String
  message : String
  deriving Repr, DecidableEq

/-- State of the `useMicrophonePermission` hook: the permission status, the
user-facing error message, and the stored capture handle (stream identified
by a number, `none` when cleared). -/
structure PermState where
  permissionStatus : String
  permissionError : String
  mediaStream : Option Nat
  deriving Repr, DecidableEq

/-- Initial permission state. -/
def permInit : PermState :=
  { permissionStatus := "idle", permissionError := "", mediaStream := none }

/-- Embedding of `cleanupMediaStream`: when a stream is held, all its tracks
are stopped and the handle cleared; the returned flag records whether tracks
were stopped.  The permission status and error are untouched. -/
def cleanupMediaStream (st : PermState) : PermState × Bool :=
  match st.mediaStream with
  | none => (st, false)
  | some _ => ({ st with mediaStream := none }, true)

/-- Embedding of the error classification in `requestPermission`:
`mediaDevicesAbsent` models the `!navigator.mediaDevices` conjunct of the
`TypeError` branch. -/
def classifyPermissionError (e : JSError) (mediaDevicesAbsent : Bool) : String :=
  if e.name = "NotAllowedError" then
    "Microphone permission denied. Please allow access to use this feature."
  else if e.name = "NotFoundError" then
    "No microphone found. Please connect a microphone and try again."
  else if e.name = "TypeError" ∧ mediaDevicesAbsent then
    "Media devices not available. This may be due to a non-secure context (non-HTTPS)."
  else
    "Microphone error: " ++ e.message

/-- Embedding of `requestPermission`.  `outcome` is the result of the
`getUserMedia` prompt, consulted only when the status is not already
`granted`.  Returns the post-state, the value returned to the caller, and
whether `getUserMedia` was invoked.  Faithful to the source: when already
granted the function returns the stored stream untouched without prompting;
on success the previous stream is cleaned up and the fresh one stored; on
failure the status becomes `denied` with a classified message and the stored
stream is left alone. -/
def requestPermission (st : PermState) (outcome : Except JSError Nat)
    (mediaDevicesAbsent : Bool) : PermState × Option Nat × Bool :=
  if st.permissionStatus ≠ "granted" then
    match outcome with
    | .ok stream =>
      ({ st with permissionStatus := "granted", permissionError := ""
                 mediaStream := some stream }, some stream, true)
    | .error e =>
      ({ st with permissionStatus := "denied"
                 permissionError := classifyPermissionError e mediaDevicesAbsent },
       none, true)
  else
    (st, st.mediaStream, false)

/-- Number of frequency bands of the visualization
(`NUM_FREQUENCY_BANDS` in `useAudioVisualization.js`). -/
def NUM_FREQUENCY_BANDS : Nat := 16

/-- Observable state of the `useAudioVisualization` hook: loudness level,
band energies, whether the update timer is scheduled, and whether an audio
context is open. -/
structure VizState where
  audioLevel : ℚ
  frequencyBands : List ℚ
  timerActive : Bool
  contextOpen : Bool
  deriving Repr, DecidableEq

/-- Analyser readings for one tick of the active visualization.  The level
and band values are the outputs of `calculateRMS` and
`processFrequencyBands`, abstracted here because they involve real-valued
square roots and fractional powers; the claims under verification only
concern the inactive branch, which never consults them. -/
structure VizEnv where
  measuredLevel : ℚ
  measuredBands : List ℚ
  deriving Repr, DecidableEq

/-- Embedding of the `useAudioVisualization` effect body.  When the stream
is absent or the hook inactive, the level and all bands are reset to zero,
the timer is cancelled and the context closed, and no graph node is created;
otherwise the graph (source, high-pass filter, analyser) is built, the first
update runs and the tick timer is scheduled.  The returned flag records
whether graph construction was attempted.  The resulting observable state is
fully determined by the stream, the activity flag and the analyser readings
(the previous state only determines which cleanup calls are issued, not the
outcome). -/
def vizEffect (mediaStream : Option Nat) (isActive : Bool) (env : VizEnv) :
    VizState × Bool :=
  if mediaStream = none ∨ isActive = false then
    ({ audioLevel := 0
       frequencyBands := List.replicate NUM_FREQUENCY_BANDS 0
       timerActive := false
       contextOpen := false }, false)
  else
    ({ audioLevel := env.measuredLevel
       frequencyBands := env.measuredBands
       timerActive := true
       contextOpen := true }, true)

/-- State of the `useRecordingTimer` hook: the elapsed-seconds cell and
whether the interval timer is installed. -/
structure ClockState where
  recordingTime : Nat
  timerActive : Bool
  deriving Repr, DecidableEq

/-- Embedding of the `useRecordingTimer` effect: when recording starts the
time is reset to zero and the interval installed; when it stops the interval
is cleared and the time left untouched. -/
def timerEffect (isRecording : Bool) (st : ClockState) : ClockState :=
  if isRecording then { recordingTime := 0, timerActive := true }
  else { st with timerActive := false }

/-- One firing of the interval callback: increments the elapsed time; a
cleared interval never fires, so an inactive clock is unchanged. -/
def tickClock (st : ClockState) : ClockState :=
  if st.timerActive then { st with recordingTime := st.recordingTime + 1 } else st

/-- State of the `useSpeechToText` orchestrator: its three React state cells,
the transcription hook state, the recording clock, the `tempTranscript`
value captured by the closures of a pending delayed stop (`none` when no
stop is pending), and a counter supplying fresh transcriber identities. -/
structure OrchState where
  isListening : Bool
  isProcessing : Bool
  transcript : String
  stopSnapshot : Option String
  rt : RTState
  clock : ClockState
  nextId : Nat
  deriving Repr, DecidableEq

/-- Initial orchestrator state. -/
def orchInit : OrchState :=
  { isListening := false, isProcessing := false, transcript := ""
    stopSnapshot := none, rt := rtInit, clock := ⟨0, false⟩, nextId := 0 }

/-- Embedding of the commit step inside the inner `setTimeout` of
`stopListening`: when the captured transcript is non-blank it is appended to
the committed transcript with a separating space unless the committed text
is empty or already ends in a space. -/
def commitTranscript (prev tempSnapshot : String) : String :=
  if trimStr tempSnapshot = "" then prev
  else
    prev ++ (if prev ≠ "" ∧ endsWithSpace prev = false then " " else "")
      ++ trimStr tempSnapshot

/-- Events driving the orchestrator: the user-facing start and stop calls,
the two timers scheduled by `stopListening`, the recording interval tick,
and the provider events delivered to the current transcriber. -/
inductive OrchEvent where
  | startRequested : OrchEvent
  | stopRequested : OrchEvent
  | drainElapsed : OrchEvent
  | commitElapsed : OrchEvent
  | clockTick : OrchEvent
  | provider : RTEvent → OrchEvent
  deriving Repr, DecidableEq

/-- One step of the orchestrator.

* `startRequested` — `startListening` with permission already granted:
  clears the session transcripts, resets the clock, sets `isListening`,
  whereupon the activation effect connects a fresh transcriber (the model
  takes the token fetch and socket connection to succeed, the situation of
  the drain-delay scenario under verification).
* `stopRequested` — `stopListening`: a no-op unless listening; otherwise it
  sets the processing flag and schedules the drain and commit timers, whose
  callbacks close over the `tempTranscript` value of the render in which
  `stopListening` was invoked; the model stores that value in
  `stopSnapshot`.
* `drainElapsed` — the 1500 ms timer: `setIsListening(false)`, whereupon the
  deactivation effects disconnect the transcriber and clear the recording
  interval.
* `commitElapsed` — the nested 500 ms timer: commits the captured snapshot
  (not the live `tempTranscript`) and clears the processing flag.
* `clockTick` — the recording interval.
* `provider e` — a provider event on the current transcriber; after
  `disconnect` has closed the session no further events arrive. -/
def orchStep (s : OrchState) : OrchEvent → OrchState
  | .startRequested =>
    let rt1 := clearTranscriptsFn s.rt
    let rt2 := (connectFn rt1 s.nextId (.ok "token") (.ok ())).2
    { s with isListening := true, rt := rt2, nextId := s.nextId + 1
             clock := timerEffect true s.clock }
  | .stopRequested =>
    if s.isListening then
      { s with isProcessing := true, stopSnapshot := some s.rt.tempTranscript }
    else s
  | .drainElapsed =>
    { s with isListening := false, rt := disconnectFn s.rt (.ok ())
             clock := timerEffect false s.clock }
  | .commitElapsed =>
    match s.stopSnapshot with
    | none => s
    | some snap =>
      { s with transcript := commitTranscript s.transcript snap
               isProcessing := false, stopSnapshot := none }
  | .clockTick => { s with clock := tickClock s.clock }
  | .provider e =>
    match s.rt.transcriberCur with
    | none => s
    | some id => { s with rt := deliverEvent id e s.rt }

/-- Run of the orchestrator over a list of events from the initial state. -/
def runOrch (evs : List OrchEvent) : OrchState :=
  evs.foldl orchStep orchInit

/-- Transcript payload of a `FinalTranscript` event whose text rides in the
direct `text` field. -/
def mkFinal (s : String) : TranscriptData :=
  { message_type := "FinalTranscript", text := s, transcript := ""
    dataText := "", dataTranscript := "", message := "" }

/-- The live-text shape stated by the specification: the trimmed fragments
joined by single spaces, `trim(f1) ++ " " ++ trim(f2) ++ ...`. -/
def specJoin : List String → String
  | [] => ""
  | [f] => trimStr f
  | f :: g :: fs => trimStr f ++ " " ++ specJoin (g :: fs)

/-- Tail of the space-join: one leading space before each trimmed fragment. -/
def tailJoin : List String → String
  | [] => ""
  | f :: fs => " " ++ trimStr f ++ tailJoin fs

/-- Processing of a list of final fragments by the transcript handler. -/
def processFinals (st : RTState) (fs : List String) : RTState :=
  fs.foldl (fun s f => handleTranscript (mkFinal f) s) st

/-! Helper lemmas about trimming and the accumulation step. -/

theorem trimStr_empty : trimStr "" = "" := rfl

theorem ne_empty_of_trim_ne {f : String} (h : trimStr f ≠ "") : f ≠ "" := by
  intro hf
  exact h (hf ▸ trimStr_empty)

theorem appendFinal_empty (f : String) : appendFinal "" f = trimStr f := by
  simp [appendFinal]

theorem appendFinal_of_ne_empty (t f : String) (ht : t ≠ "") :
    appendFinal t f = t ++ " " ++ trimStr f := by
  simp [appendFinal, ht]

theorem append_space_ne_empty (t u : String) : t ++ " " ++ u ≠ "" := by
  intro hc
  have hd := congrArg String.data hc
  simp [String.data_append] at hd

theorem handleTranscript_final (f : String) (st : RTState) (h : trimStr f ≠ "") :
    handleTranscript (mkFinal f) st
      = { st with tempTranscript := appendFinal st.tempTranscript f } := by
  have hf : f ≠ "" := ne_empty_of_trim_ne h
  simp [handleTranscript, getTranscriptText, mkFinal, hf, h]

theorem specJoin_cons (f : String) (fs : List String) :
    specJoin (f :: fs) = trimStr f ++ tailJoin fs := by
  induction fs generalizing f with
  | nil => simp [specJoin, tailJoin, String.append_empty]
  | cons g gs ih =>
    show trimStr f ++ " " ++ specJoin (g :: gs) = trimStr f ++ tailJoin (g :: gs)
    rw [ih g]
    simp [tailJoin, String.append_assoc]

theorem processFinals_temp (fs : List String) (st : RTState)
    (h : ∀ f ∈ fs, trimStr f ≠ "") :
    (processFinals st fs).tempTranscript = fs.foldl appendFinal st.tempTranscript := by
  induction fs generalizing st with
  | nil => rfl
  | cons f gs ih =>
    have hf : trimStr f ≠ "" := h f (List.mem_cons_self f gs)
    have hgs : ∀ g ∈ gs, trimStr g ≠ "" := fun g hg => h g (List.mem_cons_of_mem f hg)
    simp only [processFinals, List.foldl_cons] at ih ⊢
    rw [handleTranscript_final f st hf]
    exact ih _ hgs

theorem foldl_appendFinal_of_ne_empty (fs : List String) (t : String)
    (h : ∀ f ∈ fs, trimStr f ≠ "") (ht : t ≠ "") :
    fs.foldl appendFinal t = t ++ tailJoin fs := by
  induction fs generalizing t with
  | nil => simp [tailJoin, String.append_empty]
  | cons f gs ih =>
    have hf : trimStr f ≠ "" := h f (List.mem_cons_self f gs)
    have hgs : ∀ g ∈ gs, trimStr g ≠ "" := fun g hg => h g (List.mem_cons_of_mem f hg)
    rw [List.foldl_cons, appendFinal_of_ne_empty t f ht,
      ih (t ++ " " ++ trimStr f) hgs (append_space_ne_empty t (trimStr f))]
    simp [tailJoin, String.append_assoc]

/-- C3: for every sequence of final fragments with non-blank text processed
during one session starting from empty live text, the resulting live text
equals the trimmed fragments joined by single spaces — each final fragment
is appended with exactly one space separator when the live text is
non-empty, and no previously appended fragment is dropped or overwritten. -/
theorem claim_C3_final_accumulation (st : RTState) (fs : List String)
    (hempty : st.tempTranscript = "") (hnb : ∀ f ∈ fs, trimStr f ≠ "") :
    (processFinals st fs).tempTranscript = specJoin fs := by
  rw [processFinals_temp fs st hnb, hempty]
  cases fs with
  | nil => rfl
  | cons f gs =>
    have hf : trimStr f ≠ "" := hnb f (List.mem_cons_self f gs)
    have hgs : ∀ g ∈ gs, trimStr g ≠ "" := fun g hg => hnb g (List.mem_cons_of_mem f hg)
    rw [List.foldl_cons, appendFinal_empty f,
      foldl_appendFinal_of_ne_empty gs (trimStr f) hgs hf, specJoin_cons]

/-- C3 witness: two concrete fragments accumulate to `"Hello world"`. -/
theorem claim_C3_witness :
    rtInit.tempTranscript = "" ∧ (∀ f ∈ ["Hello ", " world"], trimStr f ≠ "") ∧
      (processFinals rtInit ["Hello ", " world"]).tempTranscript = "Hello world" := by
  refine ⟨rfl, by decide, ?_⟩
  rw [claim_C3_final_accumulation rtInit ["Hello ", " world"] rfl (by decide)]
  decide

/-- C6 counterexample: after a failed connection attempt the status is
`error` and no transcriber instance exists, and `disconnect()` then leaves
the status at `error` instead of resetting it to `idle` — refuting the claim
that after every `disconnect()` the status is `idle`. -/
theorem claim_C6_counterexample :
    ({ rtInit with connectionStatus := "error" } : RTState).transcriberCur = none ∧
      (disconnectFn { rtInit with connectionStatus := "error" } (.ok ())).connectionStatus
        ≠ "idle" := by
  decide

/-- C6 as amended: when a transcriber instance exists, `disconnect()` clears
the ready flag, the instance and the status (to `idle`), with the identical
result whether closing succeeds or raises (close errors are swallowed and
the recorded error message is untouched); when no instance exists,
`disconnect()` leaves the state entirely unchanged. -/
theorem claim_C6_amended_disconnect (st : RTState) (o : Except String Unit) :
    (st.transcriberCur ≠ none →
      (disconnectFn st o).connectionReady = false ∧
      (disconnectFn st o).connectionStatus = "idle" ∧
      (disconnectFn st o).transcriberCur = none) ∧
    disconnectFn st o = disconnectFn st (.ok ()) ∧
    (st.transcriberCur = none → disconnectFn st o = st) ∧
    (disconnectFn st o).sttError = st.sttError := by
  cases h : st.transcriberCur with
  | none => cases o <;> simp [disconnectFn, h]
  | some id => cases o <;> simp [disconnectFn, h]

/-- C6 witness: a state holding transcriber 0 whose close raises is still
reset to `idle`, not ready. -/
theorem claim_C6_witness :
    ({ rtInit with transcriberCur := some 0 } : RTState).transcriberCur ≠ none ∧
      (disconnectFn { rtInit with transcriberCur := some 0 } (.error "close failed")).connectionStatus
        = "idle" := by
  refine ⟨by decide, ?_⟩
  exact (claim_C6_amended_disconnect { rtInit with transcriberCur := some 0 }
    (.error "close failed")).1 (by decide) |>.2.1

/-- C7: when permission is already granted, `requestAccess()` performs no
new device prompt, returns the currently held capture handle, and leaves the
whole permission state (status, error, handle) unchanged. -/
theorem claim_C7_granted_fast_path (st : PermState) (outcome : Except JSError Nat)
    (mediaDevicesAbsent : Bool) (h : st.permissionStatus = "granted") :
    requestPermission st outcome mediaDevicesAbsent = (st, st.mediaStream, false) := by
  simp [requestPermission, h]

/-- C7 witness: a second request while granted returns the stored stream 5
without prompting. -/
theorem claim_C7_witness :
    requestPermission ⟨"granted", "", some 5⟩ (.ok 7) false
      = (⟨"granted", "", some 5⟩, some 5, false) :=
  claim_C7_granted_fast_path ⟨"granted", "", some 5⟩ (.ok 7) false rfl

/-- C10: releasing the handle while granted keeps the status `granted` and
the error unchanged, clears the handle, and every later `requestAccess()`
takes the already-granted fast path — no prompt, no state change, returning
`none` (the cleared handle) instead of re-acquiring one. -/
theorem claim_C10_release_then_request (st : PermState) (outcome : Except JSError Nat)
    (mediaDevicesAbsent : Bool) (h : st.permissionStatus = "granted") :
    ((cleanupMediaStream st).1.permissionStatus = "granted") ∧
    ((cleanupMediaStream st).1.permissionError = st.permissionError) ∧
    ((cleanupMediaStream st).1.mediaStream = none) ∧
    (requestPermission (cleanupMediaStream st).1 outcome mediaDevicesAbsent
      = ((cleanupMediaStream st).1, none, false)) := by
  cases hm : st.mediaStream with
  | none =>
    refine ⟨by simp [cleanupMediaStream, hm, h], by simp [cleanupMediaStream, hm],
      by simp [cleanupMediaStream, hm], ?_⟩
    simp only [cleanupMediaStream, hm]
    rw [claim_C7_granted_fast_path st outcome mediaDevicesAbsent h, hm]
  | some s =>
    refine ⟨by simp [cleanupMediaStream, hm, h], by simp [cleanupMediaStream, hm],
      by simp [cleanupMediaStream, hm], ?_⟩
    have h1 : (cleanupMediaStream st).1 = { st with mediaStream := none } := by
      simp [cleanupMediaStream, hm]
    rw [h1, claim_C7_granted_fast_path { st with mediaStream := none } outcome
      mediaDevicesAbsent h]

/-- C10 witness: release from a concrete granted state, then a request that
would otherwise succeed with stream 9 still returns `none` without
prompting. -/
theorem claim_C10_witness :
    (cleanupMediaStream ⟨"granted", "", some 5⟩).1.permissionStatus = "granted" ∧
      requestPermission (cleanupMediaStream ⟨"granted", "", some 5⟩).1 (.ok 9) false
        = ((cleanupMediaStream ⟨"granted", "", some 5⟩).1, none, false) := by
  have h := claim_C10_release_then_request ⟨"granted", "", some 5⟩ (.ok 9) false rfl
  exact ⟨h.1, h.2.2.2⟩

/-- C8: whenever the visualization is inactive or the capture handle is
absent, the loudness level is 0, all 16 frequency-band values are 0, and no
audio graph construction is attempted. -/
theorem claim_C8_inactive_reset (mediaStream : Option Nat) (isActive : Bool)
    (env : VizEnv) (h : mediaStream = none ∨ isActive = false) :
    (vizEffect mediaStream isActive env).1.audioLevel = 0 ∧
    (vizEffect mediaStream isActive env).1.frequencyBands.length = 16 ∧
    (∀ b ∈ (vizEffect mediaStream isActive env).1.frequencyBands, b = 0) ∧
    (vizEffect mediaStream isActive env).2 = false := by
  have hres : vizEffect mediaStream isActive env =
      ({ audioLevel := 0, frequencyBands := List.replicate NUM_FREQUENCY_BANDS 0
         timerActive := false, contextOpen := false }, false) := by
    simp [vizEffect, if_pos h]
  rw [hres]
  refine ⟨rfl, rfl, ?_, rfl⟩
  intro b hb
  exact List.eq_of_mem_replicate hb

/-- C8 witness: deactivating with no handle yields all-zero output and no
graph construction. -/
theorem claim_C8_witness :
    (vizEffect none false ⟨55, [1, 2, 3]⟩).1.audioLevel = 0 ∧
      (vizEffect none false ⟨55, [1, 2, 3]⟩).2 = false := by
  have h := claim_C8_inactive_reset none false ⟨55, [1, 2, 3]⟩ (Or.inl rfl)
  exact ⟨h.1, h.2.2.2⟩

/-- C9: the recording clock is reset to 0 exactly when a session starts and
is frozen — value kept, no longer advancing — when the session stops; every
provider (transcription connection) event leaves the clock untouched, as do
the stop request and the commit timer. -/
theorem claim_C9_recording_clock (s : OrchState) :
    ((orchStep s .startRequested).clock.recordingTime = 0 ∧
      (orchStep s .startRequested).clock.timerActive = true) ∧
    ((orchStep s .drainElapsed).clock.recordingTime = s.clock.recordingTime ∧
      (orchStep s .drainElapsed).clock.timerActive = false) ∧
    (s.clock.timerActive = false →
      (orchStep s .clockTick).clock.recordingTime = s.clock.recordingTime) ∧
    (∀ e : RTEvent, (orchStep s (.provider e)).clock = s.clock) ∧
    (orchStep s .stopRequested).clock = s.clock ∧
    (orchStep s .commitElapsed).clock = s.clock := by
  refine ⟨⟨rfl, rfl⟩, ⟨rfl, rfl⟩, ?_, ?_, ?_, ?_⟩
  · intro hoff
    simp [orchStep, tickClock, hoff]
  · intro e
    cases h : s.rt.transcriberCur <;> simp [orchStep, h]
  · by_cases h : s.isListening <;> simp [orchStep, h]
  · cases h : s.stopSnapshot <;> simp [orchStep, h]

/-- C9 witness: from the initial state a tick without an active timer keeps
the clock at 0, and a provider event keeps the whole clock. -/
theorem claim_C9_witness :
    orchInit.clock.timerActive = false ∧
      (orchStep orchInit .clockTick).clock.recordingTime = orchInit.clock.recordingTime ∧
      (orchStep orchInit (.provider .openEv)).clock = orchInit.clock := by
  have h := claim_C9_recording_clock orchInit
  exact ⟨rfl, h.2.2.1 rfl, h.2.2.2.1 .openEv⟩

/-- C2 counterexample: with transcriber 1 current, the `connected` and
`transcript` handlers of the superseded instance 0 still mutate the shared
ready flag and the live transcript — they are not no-ops. -/
theorem claim_C2_counterexample :
    ({ rtInit with transcriberCur := some 1 } : RTState).transcriberCur ≠ some 0 ∧
    ({ rtInit with transcriberCur := some 1 } : RTState).connectionReady = false ∧
    (deliverEvent 0 .connectedEv { rtInit with transcriberCur := some 1 }).connectionReady
      = true ∧
    ({ rtInit with transcriberCur := some 1 } : RTState).tempTranscript = "" ∧
    (deliverEvent 0 (.transcriptEv (mkFinal "hi"))
      { rtInit with transcriberCur := some 1 }).tempTranscript = "hi" := by
  decide

/-- C2 as amended: only the `close` handler's status reset and the scheduled
reconnect consult the current-instance guard.  A superseded instance that
receives a `connected` or `transcript` event mutates the shared ready flag,
status and live transcript exactly as the current instance would; its
`close` event leaves the status unchanged (while still clearing the shared
ready flag), and its reconnect timer does not fire a reconnect. -/
theorem claim_C2_amended_stale_guard (st : RTState) (me cur : Nat) (d : TranscriptData)
    (hcur : st.transcriberCur = some cur) (hne : me ≠ cur) :
    deliverEvent me .connectedEv st = deliverEvent cur .connectedEv st ∧
    (deliverEvent me .connectedEv st).connectionReady = true ∧
    (deliverEvent me .connectedEv st).connectionStatus = "connected" ∧
    deliverEvent me (.transcriptEv d) st = deliverEvent cur (.transcriptEv d) st ∧
    (deliverEvent me .closeEv st).connectionStatus = st.connectionStatus ∧
    (deliverEvent me .closeEv st).connectionReady = false ∧
    reconnectFires me st = false := by
  refine ⟨rfl, rfl, rfl, rfl, ?_, ?_, ?_⟩
  · simp [deliverEvent, hcur, Ne.symm hne]
  · simp [deliverEvent, hcur, Ne.symm hne]
  · simp [reconnectFires, hcur, Ne.symm hne]

/-- C2 witness: instance 0 is stale once transcriber 1 is current; its
`connected` event still flips the shared ready flag, while its `close` event
leaves the status alone and its reconnect guard fails. -/
theorem claim_C2_witness :
    (deliverEvent 0 .connectedEv { rtInit with transcriberCur := some 1 }).connectionReady
        = true ∧
      (deliverEvent 0 .closeEv { rtInit with transcriberCur := some 1 }).connectionStatus
        = ({ rtInit with transcriberCur := some 1 } : RTState).connectionStatus ∧
      reconnectFires 0 { rtInit with transcriberCur := some 1 } = false := by
  have h := claim_C2_amended_stale_guard { rtInit with transcriberCur := some 1 }
    0 1 (mkFinal "hi") rfl (by decide)
  exact ⟨h.2.1, h.2.2.2.2.1, h.2.2.2.2.2.2⟩

/-- C5: when the token endpoint responds with a non-success HTTP status and
`connect()` is called from the idle state, `connect()` returns `false`, the
status becomes `error`, and the recorded message contains (here: starts
with) the text `Failed to connect`. -/
theorem claim_C5_token_failure (st : RTState) (newId : Nat) (r : HttpResponse)
    (socketOutcome : Except String Unit)
    (hidle : st.connectionStatus = "idle") (hfail : r.ok = false) :
    (connectFn st newId (fetchToken r) socketOutcome).1 = false ∧
    (connectFn st newId (fetchToken r) socketOutcome).2.connectionStatus = "error" ∧
    ∃ t, (connectFn st newId (fetchToken r) socketOutcome).2.sttError
      = "Failed to connect" ++ t := by
  have hferr : fetchToken r
      = .error ("Server returned " ++ toString r.status ++ ": " ++ r.statusText) := by
    simp [fetchToken, hfail]
  refine ⟨?_, ?_, ?_⟩
  · simp [connectFn, hidle, hferr]
  · simp [connectFn, hidle, hferr]
  · refine ⟨" to speech-to-text service: "
      ++ ("Server returned " ++ toString r.status ++ ": " ++ r.statusText), ?_⟩
    have hpre : ("Failed to connect to speech-to-text service: " : String)
        = "Failed to connect" ++ " to speech-to-text service: " := by decide
    simp only [connectFn, hidle, hferr]
    simp only [String.append_assoc]
    rw [hpre, String.append_assoc]
    simp [hidle]

/-- C5 witness: an HTTP 500 from the token endpoint makes a connect from
idle fail with an `error` status and a message starting with
`Failed to connect`. -/
theorem claim_C5_witness :
    (connectFn rtInit 0 (fetchToken ⟨false, 500, "Internal Server Error", ""⟩) (.ok ())).1
        = false ∧
      (connectFn rtInit 0
        (fetchToken ⟨false, 500, "Internal Server Error", ""⟩) (.ok ())).2.connectionStatus
        = "error" ∧
      ∃ t, (connectFn rtInit 0
        (fetchToken ⟨false, 500, "Internal Server Error", ""⟩) (.ok ())).2.sttError
        = "Failed to connect" ++ t :=
  claim_C5_token_failure rtInit 0 ⟨false, 500, "Internal Server Error", ""⟩ (.ok ()) rfl rfl

/-! Helper lemmas about the frame encoder. -/

theorem sampleToInt16_of_one_le (x : ℚ) (h : 1 ≤ x) : sampleToInt16 x = 32767 := by
  have hclamp : clampQ x = 1 := by
    rw [clampQ, min_eq_left h]
    exact max_eq_right (by norm_num)
  simp only [sampleToInt16, hclamp]
  norm_num [ratTrunc, int16OfInt]

theorem sampleToInt16_of_le_neg_one (x : ℚ) (h : x ≤ -1) : sampleToInt16 x = -32768 := by
  have hclamp : clampQ x = -1 := by
    rw [clampQ, min_eq_right (le_trans h (by norm_num))]
    exact max_eq_left h
  simp only [sampleToInt16, hclamp]
  norm_num [ratTrunc, int16OfInt]

theorem sampleToInt16_zero : sampleToInt16 0 = 0 := by
  have hclamp : clampQ 0 = 0 := by
    rw [clampQ, min_eq_right (by norm_num)]
    exact max_eq_right (by norm_num)
  simp only [sampleToInt16, hclamp]
  norm_num [ratTrunc, int16OfInt]

theorem convertFloat32ToInt16_getD (xs : List ℚ) (i : Nat) (h : i < xs.length) :
    (convertFloat32ToInt16 xs).getD i 0 = sampleToInt16 (xs.getD i 0) := by
  have hlen : i < (convertFloat32ToInt16 xs).length := by
    simpa [convertFloat32ToInt16] using h
  rw [List.getD_eq_getElem?_getD, List.getElem?_eq_getElem hlen]
  simp [convertFloat32ToInt16]

/-- C4: the frame encoder is a pure per-sample function — the output has one
16-bit value per input sample, each computed from its own input alone by
clamping to the unit interval and scaling negative samples by 32768 and
non-negative ones by 32767; the boundary inputs −1, 0, 1 map exactly to
−32768, 0, 32767, out-of-range inputs saturate there too, and equal samples
at the same index of different inputs encode equally (no cross-sample
state). -/
theorem claim_C4_encoder :
    (convertFloat32ToInt16 [-1, 0, 1] = [-32768, 0, 32767]) ∧
    (∀ xs : List ℚ, (convertFloat32ToInt16 xs).length = xs.length) ∧
    (∀ (xs : List ℚ) (i : Nat), i < xs.length →
      (convertFloat32ToInt16 xs).getD i 0 = sampleToInt16 (xs.getD i 0)) ∧
    (∀ (xs ys : List ℚ) (i : Nat), i < xs.length → i < ys.length →
      xs.getD i 0 = ys.getD i 0 →
      (convertFloat32ToInt16 xs).getD i 0 = (convertFloat32ToInt16 ys).getD i 0) ∧
    (∀ x : ℚ, 1 ≤ x → sampleToInt16 x = 32767) ∧
    (∀ x : ℚ, x ≤ -1 → sampleToInt16 x = -32768) := by
  refine ⟨?_, ?_, convertFloat32ToInt16_getD, ?_, sampleToInt16_of_one_le,
    sampleToInt16_of_le_neg_one⟩
  · have h0 : convertFloat32ToInt16 [-1, 0, 1]
        = [sampleToInt16 (-1), sampleToInt16 0, sampleToInt16 1] := rfl
    rw [h0, sampleToInt16_of_le_neg_one (-1) (by norm_num), sampleToInt16_zero,
      sampleToInt16_of_one_le 1 (by norm_num)]
  · intro xs
    simp [convertFloat32ToInt16]
  · intro xs ys i hx hy hxy
    rw [convertFloat32ToInt16_getD xs i hx, convertFloat32ToInt16_getD ys i hy, hxy]

/-- C4 witness: the per-element equation at index 1 of a concrete input, and
saturation of the out-of-range sample 3. -/
theorem claim_C4_witness :
    (1 < ([(1:ℚ)/2, 3] : List ℚ).length) ∧
      (convertFloat32ToInt16 [(1:ℚ)/2, 3]).getD 1 0
        = sampleToInt16 (([(1:ℚ)/2, 3] : List ℚ).getD 1 0) ∧
      (1:ℚ) ≤ 3 ∧ sampleToInt16 3 = 32767 := by
  refine ⟨by norm_num, claim_C4_encoder.2.2.1 [(1:ℚ)/2, 3] 1 (by norm_num), by norm_num,
    claim_C4_encoder.2.2.2.2.1 3 (by norm_num)⟩

/-- C1 (evaluation of the code at the failing input): the claim states that
final fragments still in flight at the stop request and arriving during the
drain delay are included in the committed transcript.  When both `Hello` and
`world` arrive before the stop request the session indeed commits
`Hello world` (first conjunct, the scenario spelled out in the
specification).  But when `world` arrives during the drain delay the
teardown has not yet happened and the fragment duly reaches the live text
(second conjunct), yet the commit uses the `tempTranscript` value captured
by the closures of `stopListening` at the stop request, so the committed
transcript is only `Hello` (third conjunct) — the drain delay fails its
stated purpose for exactly the fragments it exists to catch. -/
theorem claim_C1_drain_commit_eval :
    (runOrch [.startRequested, .provider .openEv,
        .provider (.transcriptEv (mkFinal "Hello")),
        .provider (.transcriptEv (mkFinal "world")),
        .stopRequested, .drainElapsed, .commitElapsed]).transcript = "Hello world" ∧
    (runOrch [.startRequested, .provider .openEv,
        .provider (.transcriptEv (mkFinal "Hello")),
        .stopRequested,
        .provider (.transcriptEv (mkFinal "world")),
        .drainElapsed, .commitElapsed]).rt.tempTranscript = "Hello world" ∧
    (runOrch [.startRequested, .provider .openEv,
        .provider (.transcriptEv (mkFinal "Hello")),
        .stopRequested,
        .provider (.transcriptEv (mkFinal "world")),
        .drainElapsed, .commitElapsed]).transcript = "Hello" := by
  decide

end STT
